import Mathlib

/-!
Verification of the CuraBridge Blender add-on (repository `Synopsik/CuraBridge`).

The repository ships two versions of the add-on:
  * `src/__init__.py`             — version 1.1.1
  * `src/cura_bridge/__init__.py` — version 1.1.0

This file gives a shallow embedding of the add-on's core logic:
  * the export-path resolver `_make_stl_path` (with its helpers
    `os.path.basename`, `os.path.splitext`, `os.path.join`,
    `bpy.path.clean_name`, and `datetime.now().strftime("%Y%m%d_%H%M%S")`),
  * the export-directory lifecycle `_wipe_export_dir` / `_ensure_export_dir`
    of both versions (recursive `shutil.rmtree(…, ignore_errors=True)` in
    v1.1.1 versus a flat per-file `os.remove` loop plus `os.rmdir` in v1.1.0),
  * the launch helper `CURA_OT_send._launch` (spawn, one-second grace wait,
    poll) and the ordered launch-strategy chain of `CURA_OT_send.execute`,
  * the overall `execute` operator of both versions, including its status
    (`FINISHED` / `CANCELLED`), its `report` messages, and the file-system
    operations it performs.

Machine-level effects (`subprocess.Popen`, `os.path.isfile`, `shutil.which`,
`os.environ`, `platform.system`, the external STL exporter, `os.startfile`)
are modelled as inputs in an environment record: the code only branches on
their results, so each is a parameter of the embedding.
-/

namespace CuraBridge

/-! ## Characters and decimal rendering

`datetime.strftime` zero-pads `%m %d %H %M %S` to two digits and renders
`%Y` as an unpadded decimal (glibc behaviour; `datetime` years are 1–9999).
We render decimals with a fuel-based structural recursion so that all
definitions reduce in the kernel. -/

/-- Decimal digits of `n`, most significant first, computed with explicit
fuel (`fuel > n` suffices, because a number has at most `n + 1` digits). -/
def natToDigitsAux : Nat → Nat → List Char
  | 0, _ => []
  | fuel + 1, n =>
    if n < 10 then [Nat.digitChar n]
    else natToDigitsAux fuel (n / 10) ++ [Nat.digitChar (n % 10)]

/-- Unpadded decimal rendering of a natural number, as a character list. -/
def natToDigits (n : Nat) : List Char := natToDigitsAux (n + 1) n

theorem natToDigitsAux_fuel_irrel (f1 : Nat) : ∀ f2 n, n < f1 → n < f2 →
    natToDigitsAux f1 n = natToDigitsAux f2 n := by
  induction f1 with
  | zero => intro f2 n h1 _; omega
  | succ f1 ih =>
    intro f2 n h1 h2
    cases f2 with
    | zero => omega
    | succ f2 =>
      simp only [natToDigitsAux]
      by_cases h : n < 10
      · simp [h]
      · have hd : n / 10 < n := Nat.div_lt_self (by omega) (by omega)
        simp only [h, if_false]
        rw [ih f2 (n / 10) (by omega) (by omega)]

theorem natToDigitsAux_spec (fuel n : Nat) (h : n < fuel) :
    natToDigitsAux fuel n =
      if n < 10 then [Nat.digitChar n]
      else natToDigits (n / 10) ++ [Nat.digitChar (n % 10)] := by
  cases fuel with
  | zero => omega
  | succ f =>
    show (if n < 10 then [Nat.digitChar n]
      else natToDigitsAux f (n / 10) ++ [Nat.digitChar (n % 10)]) = _
    by_cases h10 : n < 10
    · simp [h10]
    · simp only [h10, if_false]
      have hd : n / 10 < n := Nat.div_lt_self (by omega) (by omega)
      have heq := natToDigitsAux_fuel_irrel f (n / 10 + 1) (n / 10)
        (by omega) (by omega)
      rw [heq]
      rfl

/-- One-step unfolding of `natToDigits`. -/
theorem natToDigits_unfold (n : Nat) :
    natToDigits n =
      if n < 10 then [Nat.digitChar n]
      else natToDigits (n / 10) ++ [Nat.digitChar (n % 10)] :=
  natToDigitsAux_spec (n + 1) n (by omega)

theorem natToDigits_ne_nil (n : Nat) : natToDigits n ≠ [] := by
  rw [natToDigits_unfold]
  by_cases h : n < 10 <;> simp [h]

theorem digitChar_inj10 : ∀ a < 10, ∀ b < 10,
    Nat.digitChar a = Nat.digitChar b → a = b := by decide

/-- Decimal rendering is injective. -/
theorem natToDigits_inj : ∀ n m : Nat, natToDigits n = natToDigits m → n = m := by
  intro n
  induction n using Nat.strong_induction_on with
  | _ n ih =>
    intro m h
    rw [natToDigits_unfold n, natToDigits_unfold m] at h
    by_cases hn : n < 10 <;> by_cases hm : m < 10
    · simp only [hn, hm, if_true, List.cons.injEq] at h
      exact digitChar_inj10 n hn m hm h.1
    · exfalso
      simp only [hn, hm, if_true, if_false] at h
      have hlen := congrArg List.length h
      simp only [List.length_append, List.length_cons, List.length_nil] at hlen
      have h0 : (natToDigits (m / 10)).length = 0 := by omega
      exact natToDigits_ne_nil (m / 10) (List.eq_nil_of_length_eq_zero h0)
    · exfalso
      simp only [hn, hm, if_true, if_false] at h
      have hlen := congrArg List.length h
      simp only [List.length_append, List.length_cons, List.length_nil] at hlen
      have h0 : (natToDigits (n / 10)).length = 0 := by omega
      exact natToDigits_ne_nil (n / 10) (List.eq_nil_of_length_eq_zero h0)
    · simp only [hn, hm, if_false] at h
      obtain ⟨h1, h2⟩ := List.append_inj' h (by simp)
      have hd : n / 10 < n := Nat.div_lt_self (by omega) (by omega)
      have hq := ih (n / 10) hd (m / 10) h1
      have hr : n % 10 = m % 10 := by
        simp only [List.cons.injEq] at h2
        exact digitChar_inj10 _ (Nat.mod_lt _ (by omega)) _ (Nat.mod_lt _ (by omega)) h2.1
      omega

/-- Two-digit zero-padded decimal rendering (`strftime` `%m %d %H %M %S`). -/
def pad2c (n : Nat) : List Char :=
  if n < 10 then '0' :: natToDigits n else natToDigits n

theorem pad2c_eq (n : Nat) (h : n < 100) :
    pad2c n = [Nat.digitChar (n / 10), Nat.digitChar (n % 10)] := by
  unfold pad2c
  by_cases h10 : n < 10
  · rw [if_pos h10, natToDigits_unfold, if_pos h10]
    have h1 : n / 10 = 0 := by omega
    have h2 : n % 10 = n := by omega
    simp [h1, h2, Nat.digitChar]
  · rw [if_neg h10, natToDigits_unfold, if_neg h10]
    have h1 : n / 10 < 10 := by omega
    rw [natToDigits_unfold, if_pos h1]
    rfl

theorem pad2c_length (n : Nat) (h : n < 100) : (pad2c n).length = 2 := by
  rw [pad2c_eq n h]; rfl

theorem pad2c_inj (n m : Nat) (hn : n < 100) (hm : m < 100)
    (h : pad2c n = pad2c m) : n = m := by
  rw [pad2c_eq n hn, pad2c_eq m hm] at h
  simp only [List.cons.injEq] at h
  have h1 := digitChar_inj10 _ (by omega) _ (by omega) h.1
  have h2 := digitChar_inj10 _ (by omega) _ (by omega) h.2.1
  omega

/-! ## Wall-clock readings

`datetime.now()` is modelled as a calendar reading at second precision:
exactly the fields that `strftime("%Y%m%d_%H%M%S")` consumes.  Two readings
taken at least one second apart differ in at least one field, so the
"separated by at least one second" hypothesis of the spec appears below as
inequality of readings. -/

structure DateTime where
  year : Nat
  month : Nat
  day : Nat
  hour : Nat
  minute : Nat
  second : Nat
deriving DecidableEq, Repr

/-- Field ranges guaranteed by Python's `datetime` type
(`MINYEAR = 1`, `MAXYEAR = 9999`). -/
def DateTime.Valid (dt : DateTime) : Prop :=
  1 ≤ dt.year ∧ dt.year ≤ 9999 ∧
  1 ≤ dt.month ∧ dt.month ≤ 12 ∧
  1 ≤ dt.day ∧ dt.day ≤ 31 ∧
  dt.hour ≤ 23 ∧ dt.minute ≤ 59 ∧ dt.second ≤ 59

instance (dt : DateTime) : Decidable dt.Valid := by
  unfold DateTime.Valid; infer_instance

/-- Character list of `datetime.now().strftime("%Y%m%d_%H%M%S")`. -/
def stampChars (dt : DateTime) : List Char :=
  natToDigits dt.year ++
    (pad2c dt.month ++ (pad2c dt.day ++ (['_'] ++
      (pad2c dt.hour ++ (pad2c dt.minute ++ pad2c dt.second)))))

/-- `datetime.now().strftime("%Y%m%d_%H%M%S")`: the timestamp appended to
the sanitized object name when the document has never been saved. -/
def strftime_stamp (dt : DateTime) : String := ⟨stampChars dt⟩

theorem stampChars_inj (dt1 dt2 : DateTime) (h1 : dt1.Valid) (h2 : dt2.Valid)
    (h : stampChars dt1 = stampChars dt2) : dt1 = dt2 := by
  obtain ⟨_, _, _, hmo1, _, hd1, hh1, hmi1, hs1⟩ := h1
  obtain ⟨_, _, _, hmo2, _, hd2, hh2, hmi2, hs2⟩ := h2
  unfold stampChars at h
  have hrest : ∀ dt : DateTime, dt.month < 100 → dt.day < 100 → dt.hour < 100 →
      dt.minute < 100 → dt.second < 100 →
      (pad2c dt.month ++ (pad2c dt.day ++ (['_'] ++
        (pad2c dt.hour ++ (pad2c dt.minute ++ pad2c dt.second))))).length = 11 := by
    intro dt a b c d e
    simp [List.length_append, pad2c_length _ a, pad2c_length _ b,
      pad2c_length _ c, pad2c_length _ d, pad2c_length _ e]
  obtain ⟨hy, h⟩ := List.append_inj' h (by
    rw [hrest dt1 (by omega) (by omega) (by omega) (by omega) (by omega),
      hrest dt2 (by omega) (by omega) (by omega) (by omega) (by omega)])
  obtain ⟨hmo, h⟩ := List.append_inj h (by
    rw [pad2c_length _ (by omega), pad2c_length _ (by omega)])
  obtain ⟨hd, h⟩ := List.append_inj h (by
    rw [pad2c_length _ (by omega), pad2c_length _ (by omega)])
  obtain ⟨-, h⟩ := List.append_inj h rfl
  obtain ⟨hh, h⟩ := List.append_inj h (by
    rw [pad2c_length _ (by omega), pad2c_length _ (by omega)])
  obtain ⟨hmi, hs⟩ := List.append_inj h (by
    rw [pad2c_length _ (by omega), pad2c_length _ (by omega)])
  obtain ⟨y1, mo1, d1, hh1', mi1, s1⟩ := dt1
  obtain ⟨y2, mo2, d2, hh2', mi2, s2⟩ := dt2
  simp only at hy hmo hd hh hmi hs hmo1 hmo2 hd1 hd2 hh1 hh2 hmi1 hmi2 hs1 hs2
  have := natToDigits_inj _ _ hy
  have := pad2c_inj _ _ (by omega) (by omega) hmo
  have := pad2c_inj _ _ (by omega) (by omega) hd
  have := pad2c_inj _ _ (by omega) (by omega) hh
  have := pad2c_inj _ _ (by omega) (by omega) hmi
  have := pad2c_inj _ _ (by omega) (by omega) hs
  simp_all

/-! ## POSIX path helpers used by `_make_stl_path` -/

/-- `os.path.basename` (POSIX): the part of the path after the last `'/'`,
computed as a left fold that restarts at every separator. -/
def basenameChars (l : List Char) : List Char :=
  l.foldl (fun acc c => if c = '/' then [] else acc ++ [c]) []

def basename (s : String) : String := ⟨basenameChars s.data⟩

theorem foldl_basename_no_slash (l : List Char) :
    ∀ acc, '/' ∉ acc →
      '/' ∉ l.foldl (fun acc c => if c = '/' then [] else acc ++ [c]) acc := by
  induction l with
  | nil => intro acc h; exact h
  | cons c cs ih =>
    intro acc h
    simp only [List.foldl_cons]
    by_cases hc : c = '/'
    · rw [if_pos hc]
      exact ih [] (by simp)
    · rw [if_neg hc]
      refine ih (acc ++ [c]) ?_
      simp only [List.mem_append, List.mem_singleton]
      rintro (h1 | h1)
      · exact h h1
      · exact hc h1.symm

theorem basenameChars_no_slash (l : List Char) : '/' ∉ basenameChars l :=
  foldl_basename_no_slash l [] (by simp)

/-- Index of the last `'.'` in a character list, if any
(`p.rfind('.')` in `posixpath._splitext`). -/
def lastDotIdx : List Char → Option Nat
  | [] => none
  | c :: cs =>
    match lastDotIdx cs with
    | some i => some (i + 1)
    | none => if c = '.' then some 0 else none

/-- The root part of `os.path.splitext(name)` for a `name` that contains no
separator (we always apply it to a `basename`): drop the extension at the
last dot, unless every character before that dot is itself a dot (so that
names such as `.bashrc` keep their full name, as in `posixpath._splitext`). -/
def splitextRoot (s : String) : String :=
  match lastDotIdx s.data with
  | none => s
  | some i => if (s.data.take i).all (fun c => c = '.') then s else ⟨s.data.take i⟩

/-- One character of `bpy.path.clean_name` (default replacement `'_'`):
ASCII letters and digits are kept, any other character of code < 256 is
replaced by `'_'`, and characters of code ≥ 256 are left untouched
(`str.translate` with a table keyed on 0–255). -/
def cleanNameChar (c : Char) : Char :=
  if c.toNat ≥ 256 then c
  else if (65 ≤ c.toNat ∧ c.toNat ≤ 90) ∨ (97 ≤ c.toNat ∧ c.toNat ≤ 122) ∨
      (48 ≤ c.toNat ∧ c.toNat ≤ 57) then c
  else '_'

/-- `bpy.path.clean_name(name)`: sanitize an object name into a
filesystem-safe token. -/
def clean_name (s : String) : String := ⟨s.data.map cleanNameChar⟩

theorem cleanNameChar_ne_slash (c : Char) : cleanNameChar c ≠ '/' := by
  unfold cleanNameChar
  split_ifs with h1 h2
  · intro he; subst he; revert h1; decide
  · intro he
    subst he
    revert h2
    decide
  · decide

/-- `b.startswith('/')` for the file-name argument of `posixpath.join`
(the separator is a single character, so this is a head test). -/
def isAbs (s : String) : Bool := s.data.head? = some '/'

/-- `d.endswith('/')` test of `posixpath.join`. -/
def endsWithSlash (s : String) : Bool := s.data.getLast? = some '/'

/-- `os.path.join(d, b)` on POSIX for a two-component call, exactly the
branch structure of `posixpath.join`: an absolute second component wins;
otherwise the separator is inserted unless `d` is empty or already ends
with one. -/
def osPathJoin (d b : String) : String :=
  if isAbs b then b
  else if d = "" then b
  else if endsWithSlash d then d ++ b
  else d ++ "/" ++ b

theorem osPathJoin_of_std (d b : String) (hd : d ≠ "")
    (hs : endsWithSlash d = false) (hb : isAbs b = false) :
    osPathJoin d b = d ++ "/" ++ b := by
  unfold osPathJoin
  rw [if_neg (by simp [hb]), if_neg hd, if_neg (by simp [hs])]

theorem osPathJoin_inj (d s t : String) (hs : isAbs s = false)
    (ht : isAbs t = false) (h : osPathJoin d s = osPathJoin d t) : s = t := by
  unfold osPathJoin at h
  simp only [hs, ht, Bool.false_eq_true, if_false] at h
  split_ifs at h with h1 h2
  · exact h
  · have hdata := congrArg String.data h
    rw [String.data_append, String.data_append] at hdata
    exact String.ext (List.append_cancel_left hdata)
  · have hdata := congrArg String.data h
    rw [String.data_append, String.data_append, String.data_append,
      String.data_append] at hdata
    exact String.ext (List.append_cancel_left hdata)

/-! ## The export-path resolver `_make_stl_path`

v1.1.1, `src/__init__.py` lines 116–124:

    def _make_stl_path(obj) -> str:
        directory = _chosen_dir()
        _ensure_export_dir(directory)
        if bpy.data.filepath:
            base = os.path.splitext(os.path.basename(bpy.data.filepath))[0]
            return os.path.join(directory, f"{base}.stl")
        safe = bpy.path.clean_name(obj.name)
        ts   = datetime.now().strftime("%Y%m%d_%H%M%S")
        return os.path.join(directory, f"{safe}_{ts}.stl")

v1.1.0 (`src/cura_bridge/__init__.py` lines 118–125) is identical except
that the directory is the fixed `EXPORT_DIR` instead of `_chosen_dir()`.
The directory-creation side effect of `_ensure_export_dir` is recorded
separately in the `execute` embedding; here we model the returned string.
`obj.name` is `objName`, `bpy.data.filepath` is `filepath`, and the current
wall-clock reading is `now`. -/
def make_stl_path (filepath objName directory : String) (now : DateTime) :
    String :=
  if filepath ≠ "" then
    osPathJoin directory (splitextRoot (basename filepath) ++ ".stl")
  else
    osPathJoin directory (clean_name objName ++ "_" ++ strftime_stamp now ++ ".stl")

/-- `os.path.expanduser("~")`; the add-on reads it once into `HOME`.  The
embedding carries it as a parameter `home`. -/
def DEFAULT_EXPORT_DIR (home : String) : String :=
  osPathJoin (osPathJoin home "Downloads") "CuraBridge"

/-- v1.1.0 `EXPORT_DIR = os.path.join(HOME, "Downloads", "CuraBridge")`. -/
def EXPORT_DIR (home : String) : String :=
  osPathJoin (osPathJoin home "Downloads") "CuraBridge"

/-- v1.1.0 `_make_stl_path` (`src/cura_bridge/__init__.py` lines 118–125). -/
def make_stl_path_v0 (filepath objName home : String) (now : DateTime) :
    String :=
  if filepath ≠ "" then
    osPathJoin (EXPORT_DIR home) (splitextRoot (basename filepath) ++ ".stl")
  else
    osPathJoin (EXPORT_DIR home)
      (clean_name objName ++ "_" ++ strftime_stamp now ++ ".stl")

/-! ## Slash-freedom of the generated file names

`posixpath.join` only drops the directory when the file-name component is
absolute; the names built by `_make_stl_path` never start with `'/'`. -/

theorem no_slash_append (s t : String) (hs : '/' ∉ s.data) (ht : '/' ∉ t.data) :
    '/' ∉ (s ++ t).data := by
  rw [String.data_append]
  simp only [List.mem_append]
  rintro (h | h)
  · exact hs h
  · exact ht h

theorem basename_no_slash (s : String) : '/' ∉ (basename s).data :=
  basenameChars_no_slash s.data

theorem splitextRoot_no_slash (s : String) (h : '/' ∉ s.data) :
    '/' ∉ (splitextRoot s).data := by
  unfold splitextRoot
  split
  · exact h
  · split
    · exact h
    · intro hm
      exact h (List.take_subset _ s.data hm)

theorem clean_name_no_slash (s : String) : '/' ∉ (clean_name s).data := by
  unfold clean_name
  simp only [List.mem_map]
  rintro ⟨c, -, hc⟩
  exact cleanNameChar_ne_slash c hc

theorem digitChar_ne_slash10 : ∀ n < 10, Nat.digitChar n ≠ '/' := by decide

theorem natToDigits_no_slash (n : Nat) : '/' ∉ natToDigits n := by
  induction n using Nat.strong_induction_on with
  | _ n ih =>
    rw [natToDigits_unfold]
    by_cases h : n < 10
    · simp only [h, if_true, List.mem_singleton]
      intro hc
      exact digitChar_ne_slash10 n h hc.symm
    · simp only [h, if_false, List.mem_append, List.mem_singleton]
      rintro (hm | hm)
      · exact ih (n / 10) (Nat.div_lt_self (by omega) (by omega)) hm
      · exact digitChar_ne_slash10 (n % 10) (Nat.mod_lt _ (by omega)) hm.symm

theorem pad2c_no_slash (n : Nat) : '/' ∉ pad2c n := by
  unfold pad2c
  by_cases h : n < 10
  · rw [if_pos h]
    simp only [List.mem_cons]
    rintro (hc | hc)
    · exact absurd hc (by decide)
    · exact natToDigits_no_slash n hc
  · rw [if_neg h]
    exact natToDigits_no_slash n

theorem stampChars_no_slash (dt : DateTime) : '/' ∉ stampChars dt := by
  unfold stampChars
  simp only [List.mem_append, List.mem_singleton]
  rintro (h | h | h | h | h | h | h)
  · exact natToDigits_no_slash _ h
  · exact pad2c_no_slash _ h
  · exact pad2c_no_slash _ h
  · exact absurd h (by decide)
  · exact pad2c_no_slash _ h
  · exact pad2c_no_slash _ h
  · exact pad2c_no_slash _ h

theorem isAbs_eq_false_iff (s : String) :
    isAbs s = false ↔ s.data.head? ≠ some '/' := by
  unfold isAbs
  simp

theorem isAbs_append_of (s t : String) (hs : '/' ∉ s.data)
    (ht : isAbs t = false) : isAbs (s ++ t) = false := by
  rw [isAbs_eq_false_iff] at ht ⊢
  rw [String.data_append]
  cases hA : s.data with
  | nil => simpa using ht
  | cons c cs =>
    simp only [List.cons_append, List.head?_cons, ne_eq, Option.some.injEq]
    intro hc
    refine hs ?_
    rw [hA, hc]
    exact List.mem_cons_self _ _

theorem isAbs_doc_name (filepath : String) :
    isAbs (splitextRoot (basename filepath) ++ ".stl") = false :=
  isAbs_append_of _ _ (splitextRoot_no_slash _ (basename_no_slash filepath))
    (by decide)

theorem isAbs_obj_name (objName : String) (dt : DateTime) :
    isAbs (clean_name objName ++ "_" ++ strftime_stamp dt ++ ".stl") = false := by
  refine isAbs_append_of _ _ ?_ (by decide)
  refine no_slash_append _ _ ?_ (stampChars_no_slash dt)
  exact no_slash_append _ _ (clean_name_no_slash objName) (by decide)

/-! ## Claims C1, C7, C8 — the export-path resolver -/

/-- C1. For every call of the export path resolver (`_make_stl_path`): if
the document path is non-empty, the returned path is
`{export_dir}/{document_base}.stl` where `document_base` is the document's
base file name without extension; otherwise the returned path is
`{export_dir}/{safe_name}_{YYYYMMDD_HHMMSS}.stl` where `safe_name` is the
sanitized object name and the timestamp has second precision.  The
`{export_dir}/…` shape of the claim presupposes a non-empty export
directory that does not already end in a separator (otherwise
`os.path.join` inserts no `'/'`), hence the two hypotheses. -/
theorem c1_export_path_resolver (filepath objName dir : String)
    (now : DateTime) (hdir : dir ≠ "") (hsl : endsWithSlash dir = false) :
    (filepath ≠ "" →
      make_stl_path filepath objName dir now
        = dir ++ "/" ++ splitextRoot (basename filepath) ++ ".stl")
    ∧ (filepath = "" →
      make_stl_path filepath objName dir now
        = dir ++ "/" ++ clean_name objName ++ "_" ++ strftime_stamp now
            ++ ".stl") := by
  constructor
  · intro hfp
    unfold make_stl_path
    rw [if_pos hfp,
      osPathJoin_of_std _ _ hdir hsl (isAbs_doc_name filepath),
      ← String.append_assoc]
  · intro hfp
    unfold make_stl_path
    rw [if_neg (by simp [hfp]),
      osPathJoin_of_std _ _ hdir hsl (isAbs_obj_name objName now),
      ← String.append_assoc, ← String.append_assoc, ← String.append_assoc]

/-- Witness for C1 at concrete inputs: a saved document `a/b.blend` maps to
`{dir}/b.stl`; an unsaved document maps to the sanitized object name plus
the formatted reading. -/
theorem c1_export_path_resolver_witness :
    ("a/b.blend" : String) ≠ "" ∧ ("/tmp/cb" : String) ≠ ""
    ∧ endsWithSlash "/tmp/cb" = false
    ∧ make_stl_path "a/b.blend" "x" "/tmp/cb" ⟨2024, 5, 6, 7, 8, 9⟩
        = "/tmp/cb/b.stl"
    ∧ make_stl_path "" "my obj!" "/tmp/cb" ⟨2024, 5, 6, 7, 8, 9⟩
        = "/tmp/cb/my_obj__20240506_070809.stl" := by
  refine ⟨by decide, by decide, by decide, ?_, ?_⟩
  · have h := (c1_export_path_resolver "a/b.blend" "x" "/tmp/cb"
      ⟨2024, 5, 6, 7, 8, 9⟩ (by decide) (by decide)).1 (by decide)
    rw [h]
    decide
  · have h := (c1_export_path_resolver "" "my obj!" "/tmp/cb"
      ⟨2024, 5, 6, 7, 8, 9⟩ (by decide) (by decide)).2 rfl
    rw [h]
    decide

/-- C7. Given a non-empty document identity, two consecutive resolutions of
the export path for the same document and export directory produce the
identical path: the result is independent of the object name and of the
wall-clock reading. -/
theorem c7_idempotent_naming (filepath o1 o2 dir : String)
    (t1 t2 : DateTime) (h : filepath ≠ "") :
    make_stl_path filepath o1 dir t1 = make_stl_path filepath o2 dir t2 := by
  unfold make_stl_path
  rw [if_pos h, if_pos h]

/-- Witness for C7: same saved document, different object names and
readings, identical path. -/
theorem c7_idempotent_naming_witness :
    ("proj.blend" : String) ≠ ""
    ∧ make_stl_path "proj.blend" "Cube" "/tmp/cb" ⟨2024, 1, 2, 3, 4, 5⟩
        = make_stl_path "proj.blend" "Suzanne" "/tmp/cb" ⟨2025, 6, 7, 8, 9, 10⟩ :=
  ⟨by decide,
    c7_idempotent_naming "proj.blend" "Cube" "Suzanne" "/tmp/cb"
      ⟨2024, 1, 2, 3, 4, 5⟩ ⟨2025, 6, 7, 8, 9, 10⟩ (by decide)⟩

/-- C8. Given no document identity, any two resolutions of the export path
separated by at least one second produce distinct paths.  Readings taken at
least one second apart differ at second precision, which is the hypothesis
`t1 ≠ t2`; both readings lie in the `datetime` field ranges. -/
theorem c8_no_document_distinct_paths (objName dir : String)
    (t1 t2 : DateTime) (h1 : t1.Valid) (h2 : t2.Valid) (hne : t1 ≠ t2) :
    make_stl_path "" objName dir t1 ≠ make_stl_path "" objName dir t2 := by
  unfold make_stl_path
  rw [if_neg (by simp)]
  intro h
  have hb := osPathJoin_inj dir _ _ (isAbs_obj_name objName t1)
    (isAbs_obj_name objName t2) h
  have hdata := congrArg String.data hb
  simp only [String.data_append] at hdata
  have hmid := List.append_cancel_left (List.append_cancel_right hdata)
  exact hne (stampChars_inj t1 t2 h1 h2 hmid)

/-- Witness for C8: two valid readings one second apart yield different
paths. -/
theorem c8_no_document_distinct_paths_witness :
    (⟨2024, 5, 6, 7, 8, 9⟩ : DateTime).Valid
    ∧ (⟨2024, 5, 6, 7, 8, 10⟩ : DateTime).Valid
    ∧ (⟨2024, 5, 6, 7, 8, 9⟩ : DateTime) ≠ ⟨2024, 5, 6, 7, 8, 10⟩
    ∧ make_stl_path "" "Cube" "/tmp/cb" ⟨2024, 5, 6, 7, 8, 9⟩
        ≠ make_stl_path "" "Cube" "/tmp/cb" ⟨2024, 5, 6, 7, 8, 10⟩ :=
  ⟨by decide, by decide, by decide,
    c8_no_document_distinct_paths "Cube" "/tmp/cb" _ _ (by decide) (by decide)
      (by decide)⟩

/-! ## The launch resolver of `CURA_OT_send.execute`

Both versions share this code verbatim (`src/__init__.py` lines 136–207,
`src/cura_bridge/__init__.py` lines 137–207).  Process-level effects are
inputs: `spawn` maps a command line to the observed outcome of
`subprocess.Popen` + `time.sleep(1)` + `p.poll()`; `curaPathIsFile` is
`os.path.isfile(prefs.cura_path)`; `flatpakIdSet` is the truthiness of
`os.environ.get("FLATPAK_ID")`; `whichX` are the `shutil.which` probes;
`startfileOk` tells whether `os.startfile` raises `OSError`. -/

/-- Host OS family as reported by `platform.system()`. -/
inductive OSKind where
  | linux
  | windows
  | darwin
  | other
deriving DecidableEq, Repr

/-- Observed outcome of one spawned process after the one-second grace
wait: the spawn raised, the process already exited (with its captured
stdout/stderr), or it is still running. -/
inductive SpawnOutcome where
  | spawnError
  | exited (out err : String)
  | running
deriving DecidableEq, Repr

/-- One externally observable launch attempt: a `_launch(cmd)` call or an
`os.startfile(path)` call. -/
inductive Action where
  | launch (cmd : List String)
  | startfile (path : String)
deriving DecidableEq, Repr

/-- File-system operations performed by the operator, in program order. -/
inductive FsOp where
  | wipeDir (path : String)
  | ensureDir (path : String)
  | writeStl (path : String)
deriving DecidableEq, Repr

inductive ReportLvl where
  | error
  | info
deriving DecidableEq, Repr

/-- A `self.report({LVL}, msg)` call. -/
structure Report where
  lvl : ReportLvl
  msg : String
deriving DecidableEq, Repr

/-- Blender operator return status. -/
inductive OpStatus where
  | finished
  | cancelled
deriving DecidableEq, Repr

/-- Everything `execute` reads from its surroundings. -/
structure ExecEnv where
  home : String
  exportDirPref : String
  normalizePref : String → String
  curaPath : String
  curaPathIsFile : Bool
  flatpakIdSet : Bool
  whichFlatpakSpawn : Bool
  whichCura : Bool
  whichFlatpak : Bool
  hostOS : OSKind
  startfileOk : Bool
  spawn : List String → SpawnOutcome
  hasMeshSelected : Bool
  blendFilepath : String
  activeObjName : String
  now : DateTime
  exportError : Option String

/-- `CURA_OT_send._launch(cmd)` (v1.1.1 lines 137–149, v1.1.0 lines
138–150): spawn; wait one second; if `poll()` shows the process exited,
capture its streams and report failure; if the spawn raised, report
failure; otherwise report success. -/
def launchCmd (e : ExecEnv) (cmd : List String) : Bool :=
  match e.spawn cmd with
  | SpawnOutcome.spawnError => false
  | SpawnOutcome.exited _ _ => false
  | SpawnOutcome.running => true

def flatpakSpawnCmd (home stl : String) : List String :=
  ["flatpak-spawn", "--host", "--directory=" ++ home, "flatpak", "run",
   "com.ultimaker.cura", stl]

def flatpakRunCmd (stl : String) : List String :=
  ["flatpak", "run", "com.ultimaker.cura", stl]

def macOpenCmd (stl : String) : List String :=
  ["open", "-a", "Ultimaker Cura", stl]

/-- Line 182–183: `if prefs.cura_path and os.path.isfile(prefs.cura_path):
launched = self._launch([prefs.cura_path, stlpath])`, starting from
`launched = False`.  The second component traces the attempts made. -/
def chain1 (e : ExecEnv) (stl : String) : Bool × List Action :=
  if e.curaPath ≠ "" ∧ e.curaPathIsFile = true then
    (launchCmd e [e.curaPath, stl], [Action.launch [e.curaPath, stl]])
  else (false, [])

/-- Line 185–187: `if not launched and os.environ.get("FLATPAK_ID") and
shutil.which("flatpak-spawn"): launched = self._launch([...])`. -/
def chain2 (e : ExecEnv) (stl : String) : Bool × List Action :=
  if (chain1 e stl).1 = false ∧ e.flatpakIdSet = true ∧
      e.whichFlatpakSpawn = true then
    (launchCmd e (flatpakSpawnCmd e.home stl),
      (chain1 e stl).2 ++ [Action.launch (flatpakSpawnCmd e.home stl)])
  else chain1 e stl

/-- Lines 189–193: `if not launched and platform.system() == "Linux":` with
the inner `if shutil.which("cura") … elif shutil.which("flatpak") …`. -/
def chain3 (e : ExecEnv) (stl : String) : Bool × List Action :=
  if (chain2 e stl).1 = false ∧ e.hostOS = OSKind.linux then
    if e.whichCura = true then
      (launchCmd e ["cura", stl],
        (chain2 e stl).2 ++ [Action.launch ["cura", stl]])
    else if e.whichFlatpak = true then
      (launchCmd e (flatpakRunCmd stl),
        (chain2 e stl).2 ++ [Action.launch (flatpakRunCmd stl)])
    else chain2 e stl
  else chain2 e stl

/-- Lines 195–197: `if not launched and platform.system() == "Windows":
try: os.startfile(stlpath); launched = True except OSError: pass`. -/
def chain4 (e : ExecEnv) (stl : String) : Bool × List Action :=
  if (chain3 e stl).1 = false ∧ e.hostOS = OSKind.windows then
    if e.startfileOk = true then
      (true, (chain3 e stl).2 ++ [Action.startfile stl])
    else
      (false, (chain3 e stl).2 ++ [Action.startfile stl])
  else chain3 e stl

/-- Lines 199–200: `if not launched and platform.system() == "Darwin":
launched = self._launch(["open", "-a", "Ultimaker Cura", stlpath])`. -/
def chain5 (e : ExecEnv) (stl : String) : Bool × List Action :=
  if (chain4 e stl).1 = false ∧ e.hostOS = OSKind.darwin then
    (launchCmd e (macOpenCmd stl),
      (chain4 e stl).2 ++ [Action.launch (macOpenCmd stl)])
  else chain4 e stl

/-- The complete launch fallback chain of `execute` (lines 180–200):
final `launched` flag and the ordered list of attempts made. -/
def launchChain (e : ExecEnv) (stl : String) : Bool × List Action :=
  chain5 e stl

/-- Result of attempting one action: `_launch` for a command,
"`os.startfile` did not raise" for the default-handler open. -/
def attemptResult (e : ExecEnv) : Action → Bool
  | Action.launch cmd => launchCmd e cmd
  | Action.startfile _ => e.startfileOk

/-- One candidate strategy as the spec describes it: an applicability
guard and the action attempted when the guard holds. -/
structure SpecStrategy where
  applicable : Bool
  action : Action

/-- The ordered strategy list as claim C2 states it: (1) configured
executable, only if non-empty and an existing file; (2) `flatpak-spawn`,
only if the sandbox variable is set and the helper is on the search path;
(3) on Linux, a bare `cura` if discoverable, else `flatpak run` (when the
runner is discoverable); (4) on Windows, the default-handler open; (5) on
macOS, `open -a` with the named bundle. -/
def specStrategies (e : ExecEnv) (stl : String) : List SpecStrategy :=
  [⟨decide (e.curaPath ≠ "") && e.curaPathIsFile,
      Action.launch [e.curaPath, stl]⟩,
   ⟨e.flatpakIdSet && e.whichFlatpakSpawn,
      Action.launch (flatpakSpawnCmd e.home stl)⟩,
   ⟨decide (e.hostOS = OSKind.linux) && e.whichCura,
      Action.launch ["cura", stl]⟩,
   ⟨decide (e.hostOS = OSKind.linux) && !e.whichCura && e.whichFlatpak,
      Action.launch (flatpakRunCmd stl)⟩,
   ⟨decide (e.hostOS = OSKind.windows), Action.startfile stl⟩,
   ⟨decide (e.hostOS = OSKind.darwin), Action.launch (macOpenCmd stl)⟩]

/-- First-success-wins evaluation of an ordered strategy list: skip
inapplicable strategies, stop at the first attempt that succeeds, record
every attempt made. -/
def runFirstSuccess (e : ExecEnv) : List SpecStrategy → Bool × List Action
  | [] => (false, [])
  | s :: rest =>
    if s.applicable = true then
      if attemptResult e s.action = true then (true, [s.action])
      else
        ((runFirstSuccess e rest).1,
          s.action :: (runFirstSuccess e rest).2)
    else runFirstSuccess e rest

/-- One `if not launched and guard: launched = attempt(action)` step. -/
def chainStep (e : ExecEnv) (st : Bool × List Action) (s : SpecStrategy) :
    Bool × List Action :=
  if st.1 = false ∧ s.applicable = true then
    (attemptResult e s.action, st.2 ++ [s.action])
  else st

theorem launch_step (e : ExecEnv) (st : Bool × List Action) (g : Bool)
    (P : Prop) [Decidable P] (hP : P ↔ g = true) (cmd : List String) :
    (if st.1 = false ∧ P then
      (launchCmd e cmd, st.2 ++ [Action.launch cmd])
    else st)
    = chainStep e st ⟨g, Action.launch cmd⟩ := by
  unfold chainStep attemptResult
  by_cases hp : P
  · have hg : g = true := hP.mp hp
    by_cases hb : st.1 = false <;> simp [hp, hg, hb]
  · have hg : g = false := by
      cases g
      · rfl
      · exact absurd (hP.mpr rfl) hp
    simp [hp, hg]

theorem chain1_eq (e : ExecEnv) (stl : String) :
    chain1 e stl
      = chainStep e (false, [])
          ⟨decide (e.curaPath ≠ "") && e.curaPathIsFile,
            Action.launch [e.curaPath, stl]⟩ := by
  unfold chain1 chainStep attemptResult
  by_cases hc : e.curaPath ≠ "" <;> cases hcf : e.curaPathIsFile <;>
    simp [hc, hcf]

theorem chain2_eq (e : ExecEnv) (stl : String) :
    chain2 e stl
      = chainStep e (chain1 e stl)
          ⟨e.flatpakIdSet && e.whichFlatpakSpawn,
            Action.launch (flatpakSpawnCmd e.home stl)⟩ := by
  unfold chain2
  exact launch_step e (chain1 e stl) _ _ (by simp [Bool.and_eq_true]) _

theorem chain3_eq (e : ExecEnv) (stl : String) :
    chain3 e stl
      = chainStep e
          (chainStep e (chain2 e stl)
            ⟨decide (e.hostOS = OSKind.linux) && e.whichCura,
              Action.launch ["cura", stl]⟩)
          ⟨decide (e.hostOS = OSKind.linux) && !e.whichCura && e.whichFlatpak,
            Action.launch (flatpakRunCmd stl)⟩ := by
  unfold chain3 chainStep attemptResult
  rcases hst : chain2 e stl with ⟨b, tr⟩
  cases b <;> cases hwc : e.whichCura <;> cases hwf : e.whichFlatpak <;>
    by_cases hos : e.hostOS = OSKind.linux <;>
    simp [hwc, hwf, hos]

theorem chain4_eq (e : ExecEnv) (stl : String) :
    chain4 e stl
      = chainStep e (chain3 e stl)
          ⟨decide (e.hostOS = OSKind.windows), Action.startfile stl⟩ := by
  unfold chain4 chainStep attemptResult
  rcases hst : chain3 e stl with ⟨b, tr⟩
  cases b <;> cases hsf : e.startfileOk <;>
    by_cases hos : e.hostOS = OSKind.windows <;>
    simp [hsf, hos]

theorem chain5_eq (e : ExecEnv) (stl : String) :
    chain5 e stl
      = chainStep e (chain4 e stl)
          ⟨decide (e.hostOS = OSKind.darwin), Action.launch (macOpenCmd stl)⟩ := by
  unfold chain5
  exact launch_step e (chain4 e stl) _ _ (by simp) _

theorem foldl_chainStep_true (e : ExecEnv) : ∀ (l : List SpecStrategy)
    (tr : List Action), l.foldl (chainStep e) (true, tr) = (true, tr) := by
  intro l
  induction l with
  | nil => intro tr; rfl
  | cons s rest ih =>
    intro tr
    rw [List.foldl_cons]
    have hstep : chainStep e (true, tr) s = (true, tr) := by
      unfold chainStep; simp
    rw [hstep]
    exact ih tr

theorem foldl_chainStep_run (e : ExecEnv) : ∀ (l : List SpecStrategy)
    (tr : List Action),
    l.foldl (chainStep e) (false, tr)
      = ((runFirstSuccess e l).1, tr ++ (runFirstSuccess e l).2) := by
  intro l
  induction l with
  | nil => intro tr; simp [runFirstSuccess]
  | cons s rest ih =>
    intro tr
    rw [List.foldl_cons]
    by_cases ha : s.applicable = true
    · have hstep : chainStep e (false, tr) s
          = (attemptResult e s.action, tr ++ [s.action]) := by
        unfold chainStep; simp [ha]
      rw [hstep]
      cases hatt : attemptResult e s.action
      · rw [ih (tr ++ [s.action])]
        simp [runFirstSuccess, ha, hatt]
      · rw [foldl_chainStep_true]
        simp [runFirstSuccess, ha, hatt]
    · have hstep : chainStep e (false, tr) s = (false, tr) := by
        unfold chainStep; simp [ha]
      rw [hstep, ih]
      simp [runFirstSuccess, ha]

/-- The nested-conditional fallback chain of `execute` computes exactly a
first-success-wins evaluation of the ordered strategy list. -/
theorem launchChain_eq_spec (e : ExecEnv) (stl : String) :
    launchChain e stl = runFirstSuccess e (specStrategies e stl) := by
  have hfold : launchChain e stl
      = (specStrategies e stl).foldl (chainStep e) (false, []) := by
    show chain5 e stl = _
    simp only [specStrategies, List.foldl_cons, List.foldl_nil]
    rw [chain5_eq, chain4_eq, chain3_eq, chain2_eq, chain1_eq]
  rw [hfold, foldl_chainStep_run]
  simp

theorem runFirstSuccess_true_shape (e : ExecEnv) : ∀ l : List SpecStrategy,
    (runFirstSuccess e l).1 = true →
    ∃ pre a, (runFirstSuccess e l).2 = pre ++ [a]
      ∧ (∀ x ∈ pre, attemptResult e x = false)
      ∧ attemptResult e a = true := by
  intro l
  induction l with
  | nil => intro h; simp [runFirstSuccess] at h
  | cons s rest ih =>
    intro h
    by_cases ha : s.applicable = true
    · cases hatt : attemptResult e s.action
      · simp only [runFirstSuccess, ha, if_true, hatt, Bool.false_eq_true,
          if_false] at h ⊢
        obtain ⟨pre, a, h1, h2, h3⟩ := ih h
        refine ⟨s.action :: pre, a, ?_, ?_, h3⟩
        · rw [h1, List.cons_append]
        · intro x hx
          rcases List.mem_cons.mp hx with hx | hx
          · rw [hx]; exact hatt
          · exact h2 x hx
      · refine ⟨[], s.action, ?_, by simp, hatt⟩
        simp [runFirstSuccess, ha, hatt]
    · simp only [runFirstSuccess, ha, if_false] at h ⊢
      exact ih h

theorem runFirstSuccess_false_shape (e : ExecEnv) : ∀ l : List SpecStrategy,
    (runFirstSuccess e l).1 = false →
    (∀ x ∈ (runFirstSuccess e l).2, attemptResult e x = false)
    ∧ (runFirstSuccess e l).2
        = (l.filter (fun s => s.applicable)).map (fun s => s.action) := by
  intro l
  induction l with
  | nil => intro _; exact ⟨by simp [runFirstSuccess], by simp [runFirstSuccess]⟩
  | cons s rest ih =>
    intro h
    by_cases ha : s.applicable = true
    · cases hatt : attemptResult e s.action
      · simp only [runFirstSuccess, ha, if_true, hatt, Bool.false_eq_true,
          if_false] at h ⊢
        obtain ⟨h1, h2⟩ := ih h
        constructor
        · intro x hx
          rcases List.mem_cons.mp hx with hx | hx
          · rw [hx]; exact hatt
          · exact h1 x hx
        · rw [h2, List.filter_cons_of_pos ha, List.map_cons]
      · simp [runFirstSuccess, ha, hatt] at h
    · simp only [runFirstSuccess, ha, Bool.false_eq_true, if_false] at h ⊢
      obtain ⟨h1, h2⟩ := ih h
      refine ⟨h1, ?_⟩
      rw [h2, List.filter_cons_of_neg (by simpa using ha)]

/-! ## Claims C2, C3 — the launch resolver -/

/-- C2. The launch resolver tries strategies in the fixed order of
`specStrategies`, stopping at the first success, each later strategy
attempted only if every earlier one failed or did not apply: the
first-success-wins evaluation of that ordered list computes exactly what
the nested conditionals of `execute` compute.  In particular, if the
configured path does not exist (`os.path.isfile` is false), strategy 1 is
not applicable and resolution behaves as if it started at strategy 2. -/
theorem c2_launch_strategy_order (e : ExecEnv) (stl : String) :
    launchChain e stl = runFirstSuccess e (specStrategies e stl)
    ∧ (e.curaPathIsFile = false →
        launchChain e stl
          = runFirstSuccess e ((specStrategies e stl).drop 1)) := by
  refine ⟨launchChain_eq_spec e stl, fun hni => ?_⟩
  rw [launchChain_eq_spec e stl]
  simp [specStrategies, runFirstSuccess, hni]

/-- Environment used by the C2 witness: a configured path that is not an
existing file on a Linux host with a discoverable `cura` binary that stays
running. -/
def envC2 : ExecEnv :=
  ⟨"/home/u", "", fun s => s, "/opt/none/cura", false, false, false, true,
    false, OSKind.linux, false, fun _ => SpawnOutcome.running, true, "",
    "Cube", ⟨2024, 1, 2, 3, 4, 5⟩, none⟩

/-- Witness for C2: with a non-existing configured path the chain equals
both the full first-success run and the run that starts at strategy 2, and
the bare `cura` strategy is what succeeds. -/
theorem c2_launch_strategy_order_witness :
    envC2.curaPathIsFile = false
    ∧ launchChain envC2 "/tmp/x.stl"
        = runFirstSuccess envC2 ((specStrategies envC2 "/tmp/x.stl").drop 1)
    ∧ launchChain envC2 "/tmp/x.stl"
        = (true, [Action.launch ["cura", "/tmp/x.stl"]]) :=
  ⟨rfl, (c2_launch_strategy_order envC2 "/tmp/x.stl").2 rfl, rfl⟩

/-- C3. For every spawned-process launch strategy: if the spawned process
has already exited after the one-second grace wait, `_launch` returns
failure (the captured streams are available in the `exited` outcome) and
the fallback chain continues — every non-final attempt in the trace
failed, and a failed chain attempted every applicable strategy; if the
process is still running after the grace wait, `_launch` returns success,
and a successful chain ends at its first successful attempt, with no
further strategy attempted. -/
theorem c3_grace_window_failure (e : ExecEnv) (stl : String) :
    (∀ cmd out err, e.spawn cmd = SpawnOutcome.exited out err →
      launchCmd e cmd = false)
    ∧ (∀ cmd, e.spawn cmd = SpawnOutcome.running → launchCmd e cmd = true)
    ∧ ((launchChain e stl).1 = true →
        ∃ pre a, (launchChain e stl).2 = pre ++ [a]
          ∧ (∀ x ∈ pre, attemptResult e x = false)
          ∧ attemptResult e a = true)
    ∧ ((launchChain e stl).1 = false →
        (∀ x ∈ (launchChain e stl).2, attemptResult e x = false)
        ∧ (launchChain e stl).2
            = ((specStrategies e stl).filter
                (fun s => s.applicable)).map (fun s => s.action)) := by
  refine ⟨?_, ?_, ?_, ?_⟩
  · intro cmd out err h
    unfold launchCmd
    rw [h]
  · intro cmd h
    unfold launchCmd
    rw [h]
  · rw [launchChain_eq_spec]
    exact runFirstSuccess_true_shape e (specStrategies e stl)
  · rw [launchChain_eq_spec]
    exact runFirstSuccess_false_shape e (specStrategies e stl)

/-- Environment used by the C3 witness: the configured executable exists
but exits within the grace window; the host is Linux with no `cura` but a
discoverable `flatpak`, and that second spawn keeps running. -/
def envC3 : ExecEnv :=
  ⟨"/home/u", "", fun s => s, "/bin/cura", true, false, false, false, true,
    OSKind.linux, false,
    fun cmd => if cmd = ["/bin/cura", "/tmp/x.stl"]
      then SpawnOutcome.exited "boom" "trace" else SpawnOutcome.running,
    true, "", "Cube", ⟨2024, 1, 2, 3, 4, 5⟩, none⟩

/-- Witness for C3: the early-exiting configured strategy fails, the chain
continues past it, and the still-running `flatpak run` attempt succeeds
and ends the chain. -/
theorem c3_grace_window_failure_witness :
    launchCmd envC3 ["/bin/cura", "/tmp/x.stl"] = false
    ∧ (launchChain envC3 "/tmp/x.stl").1 = true
    ∧ (launchChain envC3 "/tmp/x.stl").2
        = [Action.launch ["/bin/cura", "/tmp/x.stl"],
           Action.launch (flatpakRunCmd "/tmp/x.stl")]
    ∧ ∃ pre a, (launchChain envC3 "/tmp/x.stl").2 = pre ++ [a]
        ∧ (∀ x ∈ pre, attemptResult envC3 x = false)
        ∧ attemptResult envC3 a = true := by
  have h := c3_grace_window_failure envC3 "/tmp/x.stl"
  exact ⟨h.1 ["/bin/cura", "/tmp/x.stl"] "boom" "trace" (by decide),
    by decide, by decide, h.2.2.1 (by decide)⟩

/-! ## The full `execute` operator -/

/-- Python `str.strip()` whitespace test (the characters Python strips by
default). -/
def pySpace (c : Char) : Bool :=
  c = ' ' ∨ c = '\t' ∨ c = '\n' ∨ c = '\r' ∨ c = '\x0b' ∨ c = '\x0c'

/-- Python `s.strip()`. -/
def pyStrip (s : String) : String :=
  ⟨((s.data.dropWhile pySpace).reverse.dropWhile pySpace).reverse⟩

/-- v1.1.1 `_chosen_dir()` (lines 102–106): a non-blank `export_dir`
preference is normalized by `os.path.abspath(os.path.expanduser(…))`
(carried as the environment function `normalizePref`), otherwise the fixed
`DEFAULT_EXPORT_DIR`. -/
def chosen_dir (e : ExecEnv) : String :=
  if pyStrip e.exportDirPref ≠ "" then e.normalizePref (pyStrip e.exportDirPref)
  else DEFAULT_EXPORT_DIR e.home

/-- Outcome of one `CURA_OT_send.execute` call. -/
structure ExecResult where
  status : OpStatus
  report : Option Report
  attempts : List Action
  fsOps : List FsOp
deriving DecidableEq, Repr

/-- v1.1.1 `CURA_OT_send.execute` (lines 151–207): wipe the export
directory; bail out with an error report if no mesh is selected; resolve
the STL path (which ensures the directory); run the external exporter,
bailing out with its message if it raises; then walk the launch fallback
chain, reporting success or launch failure.  `fsOps` records the
file-system operations in program order; `attempts` the launch attempts. -/
def execute_v111 (e : ExecEnv) : ExecResult :=
  if e.hasMeshSelected = false then
    ⟨OpStatus.cancelled,
      some ⟨ReportLvl.error, "Select a mesh object to export."⟩,
      [], [FsOp.wipeDir (chosen_dir e)]⟩
  else
    match e.exportError with
    | some m =>
      ⟨OpStatus.cancelled,
        some ⟨ReportLvl.error, "STL export failed: " ++ m⟩,
        [], [FsOp.wipeDir (chosen_dir e), FsOp.ensureDir (chosen_dir e)]⟩
    | none =>
      if (launchChain e (make_stl_path e.blendFilepath e.activeObjName
          (chosen_dir e) e.now)).1 = true then
        ⟨OpStatus.finished, some ⟨ReportLvl.info, "Cura launched; STL sent."⟩,
          (launchChain e (make_stl_path e.blendFilepath e.activeObjName
            (chosen_dir e) e.now)).2,
          [FsOp.wipeDir (chosen_dir e), FsOp.ensureDir (chosen_dir e),
           FsOp.writeStl (make_stl_path e.blendFilepath e.activeObjName
             (chosen_dir e) e.now)]⟩
      else
        ⟨OpStatus.cancelled,
          some ⟨ReportLvl.error, "Could not launch Cura – see console."⟩,
          (launchChain e (make_stl_path e.blendFilepath e.activeObjName
            (chosen_dir e) e.now)).2,
          [FsOp.wipeDir (chosen_dir e), FsOp.ensureDir (chosen_dir e),
           FsOp.writeStl (make_stl_path e.blendFilepath e.activeObjName
             (chosen_dir e) e.now)]⟩

/-- Whether any directory wipe — the only deleting operation the operator
ever performs — occurs after the STL file has been written. -/
def wipeAfterWrite : List FsOp → Bool
  | [] => false
  | FsOp.writeStl _ :: rest =>
      rest.any (fun op => match op with
        | FsOp.wipeDir _ => true
        | _ => false)
  | _ :: rest => wipeAfterWrite rest

theorem launch_msg_ne_export_msg (m : String) :
    ("Could not launch Cura – see console." : String)
      ≠ "STL export failed: " ++ m := by
  obtain ⟨md⟩ := m
  intro h
  have h2 := congrArg (fun s : String => s.data.head?) h
  have hL : ("Could not launch Cura – see console." : String).data.head?
      = some 'C' := rfl
  have hR : (("STL export failed: " : String) ++ (⟨md⟩ : String)).data.head?
      = some 'S' := rfl
  simp only [] at h2
  rw [hL, hR] at h2
  exact absurd h2 (by decide)

/-! ## Claims C4, C9 — error handling of `execute` -/

/-- C4. If every applicable launch strategy fails, or none applies to the
current host OS (`launched` ends up false), the operation reports a launch
failure distinct from an export failure and returns `CANCELLED`; the
file-system trace ends with the STL write — the already-produced file is
never deleted, the only wipe having happened before the export. -/
theorem c4_launch_exhaustion (e : ExecEnv)
    (hsel : e.hasMeshSelected = true) (hexp : e.exportError = none)
    (hfail : (launchChain e (make_stl_path e.blendFilepath e.activeObjName
      (chosen_dir e) e.now)).1 = false) :
    (execute_v111 e).status = OpStatus.cancelled
    ∧ (execute_v111 e).report
        = some ⟨ReportLvl.error, "Could not launch Cura – see console."⟩
    ∧ (∀ m : String,
        "Could not launch Cura – see console." ≠ "STL export failed: " ++ m)
    ∧ (execute_v111 e).fsOps
        = [FsOp.wipeDir (chosen_dir e), FsOp.ensureDir (chosen_dir e),
           FsOp.writeStl (make_stl_path e.blendFilepath e.activeObjName
             (chosen_dir e) e.now)]
    ∧ wipeAfterWrite (execute_v111 e).fsOps = false := by
  unfold execute_v111
  rw [hsel, hexp, hfail]
  refine ⟨rfl, rfl, launch_msg_ne_export_msg, rfl, rfl⟩

/-- Environment of the C4 witness: mesh selected, export succeeds, but the
host OS matches no strategy and nothing is configured, so no strategy
applies. -/
def envC4 : ExecEnv :=
  ⟨"/home/u", "", fun s => s, "", false, false, false, false, false,
    OSKind.other, false, fun _ => SpawnOutcome.spawnError, true,
    "doc.blend", "Cube", ⟨2024, 1, 2, 3, 4, 5⟩, none⟩

/-- Witness for C4: with no applicable strategy the operation is cancelled
with the launch-failure report and the STL write is the last file-system
operation. -/
theorem c4_launch_exhaustion_witness :
    envC4.hasMeshSelected = true ∧ envC4.exportError = none
    ∧ (launchChain envC4 (make_stl_path envC4.blendFilepath
        envC4.activeObjName (chosen_dir envC4) envC4.now)).1 = false
    ∧ (execute_v111 envC4).status = OpStatus.cancelled
    ∧ (execute_v111 envC4).report
        = some ⟨ReportLvl.error, "Could not launch Cura – see console."⟩
    ∧ wipeAfterWrite (execute_v111 envC4).fsOps = false := by
  have h := c4_launch_exhaustion envC4 rfl rfl (by decide)
  exact ⟨rfl, rfl, by decide, h.1, h.2.1, h.2.2.2.2⟩

/-- C9. If the external exporter raises during an export operation, the
operation reports `STL export failed: ` followed by the exporter's
message, returns `CANCELLED`, and attempts no launch strategy. -/
theorem c9_export_error_aborts (e : ExecEnv) (m : String)
    (hsel : e.hasMeshSelected = true) (herr : e.exportError = some m) :
    (execute_v111 e).status = OpStatus.cancelled
    ∧ (execute_v111 e).report
        = some ⟨ReportLvl.error, "STL export failed: " ++ m⟩
    ∧ (execute_v111 e).attempts = [] := by
  unfold execute_v111
  rw [hsel, herr]
  exact ⟨rfl, rfl, rfl⟩

/-- Environment of the C9 witness: the exporter raises `disk full`, on a
host where a launch would otherwise succeed. -/
def envC9 : ExecEnv :=
  ⟨"/home/u", "", fun s => s, "/bin/cura", true, false, false, false, false,
    OSKind.linux, false, fun _ => SpawnOutcome.running, true,
    "doc.blend", "Cube", ⟨2024, 1, 2, 3, 4, 5⟩, some "disk full"⟩

/-- Witness for C9. -/
theorem c9_export_error_aborts_witness :
    envC9.hasMeshSelected = true ∧ envC9.exportError = some "disk full"
    ∧ (execute_v111 envC9).status = OpStatus.cancelled
    ∧ (execute_v111 envC9).report
        = some ⟨ReportLvl.error, "STL export failed: disk full"⟩
    ∧ (execute_v111 envC9).attempts = [] := by
  have h := c9_export_error_aborts envC9 "disk full" rfl rfl
  refine ⟨rfl, rfl, h.1, ?_, h.2.2⟩
  rw [h.2.1]
  decide

/-! ## Export-directory lifecycle

v1.1.1 (`src/__init__.py` lines 108–114):

    def _wipe_export_dir(path: str) -> None:
        if os.path.isdir(path):
            shutil.rmtree(path, ignore_errors=True)

    def _ensure_export_dir(path: str) -> None:
        os.makedirs(path, exist_ok=True)

v1.1.0 (`src/cura_bridge/__init__.py` lines 102–116): if the directory
exists, `os.remove` each entry (swallowing `OSError`, so a subdirectory or
an unremovable file survives), then `os.rmdir` the directory (swallowing
`OSError`, so it survives when non-empty).

The directory state is `none` (absent) or `some entries`.  Each entry
carries a `removable` flag telling whether the unlink/rmdir system call
for it succeeds when attempted; `shutil.rmtree(…, ignore_errors=True)`
removes a subtree bottom-up and leaves behind whatever could not be
removed. -/

mutual
inductive FNode where
  | file (removable : Bool)
  | dir (removable : Bool) (children : FList)
deriving Repr

inductive FList where
  | nil
  | cons (hd : FNode) (tl : FList)
deriving Repr
end

mutual
/-- `shutil.rmtree(…, ignore_errors=True)` on one entry: `none` when the
entry is gone afterwards, `some` of what is left otherwise.  A directory
disappears only when all its children could be removed and its own
`rmdir` succeeds. -/
def rmtreeNode : FNode → Option FNode
  | FNode.file r => if r then none else some (FNode.file r)
  | FNode.dir r cs =>
    match rmtreeList cs with
    | FList.nil => if r then none else some (FNode.dir r FList.nil)
    | cs2 => some (FNode.dir r cs2)

/-- `rmtree` over a child list, keeping the survivors in order. -/
def rmtreeList : FList → FList
  | FList.nil => FList.nil
  | FList.cons c rest =>
    match rmtreeNode c with
    | none => rmtreeList rest
    | some c2 => FList.cons c2 (rmtreeList rest)
end

/-- v1.1.1 `_wipe_export_dir`: nothing to do when the directory is absent;
otherwise remove the tree best-effort — the directory itself disappears
exactly when all of its contents could be removed. -/
def wipe_v111 : Option FList → Option FList
  | none => none
  | some cs =>
    match rmtreeList cs with
    | FList.nil => none
    | cs2 => some cs2

/-- `_ensure_export_dir` / `os.makedirs(path, exist_ok=True)`: create the
directory when absent, leave it untouched when present. -/
def ensure_v111 : Option FList → Option FList
  | none => some FList.nil
  | some cs => some cs

mutual
def allRemovableNode : FNode → Bool
  | FNode.file r => r
  | FNode.dir r cs => r && allRemovableList cs

def allRemovableList : FList → Bool
  | FList.nil => true
  | FList.cons c rest => allRemovableNode c && allRemovableList rest
end

/-- Every entry of the prior directory state is removable. -/
def allRemovableOpt : Option FList → Bool
  | none => true
  | some cs => allRemovableList cs

mutual
theorem rmtreeNode_of_allRemovable : ∀ n : FNode,
    allRemovableNode n = true → rmtreeNode n = none
  | FNode.file r, h => by
    simp only [allRemovableNode] at h
    simp [rmtreeNode, h]
  | FNode.dir r cs, h => by
    simp only [allRemovableNode, Bool.and_eq_true] at h
    have hcs := rmtreeList_of_allRemovable cs h.2
    simp [rmtreeNode, hcs, h.1]

theorem rmtreeList_of_allRemovable : ∀ l : FList,
    allRemovableList l = true → rmtreeList l = FList.nil
  | FList.nil, _ => rfl
  | FList.cons c rest, h => by
    simp only [allRemovableList, Bool.and_eq_true] at h
    have hc := rmtreeNode_of_allRemovable c h.1
    have hr := rmtreeList_of_allRemovable rest h.2
    simp [rmtreeList, hc, hr]
end

/-! v1.1.0 flat model. -/

/-- One directory entry of the flat v1.1.0 model: whether it is a
subdirectory, and whether the removal system call for it would succeed. -/
structure Entry where
  isDir : Bool
  removable : Bool
deriving DecidableEq, Repr

/-- The `for f in os.listdir(EXPORT_DIR): try: os.remove(…) except
OSError: pass` loop: `os.remove` deletes plain removable files and raises
(swallowed) on subdirectories and unremovable files. -/
def removeEntries : List Entry → List Entry
  | [] => []
  | en :: rest =>
    if en.isDir = false ∧ en.removable = true then removeEntries rest
    else en :: removeEntries rest

/-- v1.1.0 `_wipe_export_dir`: remove what `os.remove` can, then `try:
os.rmdir(…) except OSError: pass`, which succeeds only on an empty
directory. -/
def wipe_v110 : Option (List Entry) → Option (List Entry)
  | none => none
  | some es =>
    match removeEntries es with
    | [] => none
    | es2 => some es2

/-- v1.1.0 `_ensure_export_dir`. -/
def ensure_v110 : Option (List Entry) → Option (List Entry)
  | none => some []
  | some es => some es

/-- Every entry is a plain removable file. -/
def allPlainRemovable : Option (List Entry) → Bool
  | none => true
  | some es => es.all (fun en => !en.isDir && en.removable)

theorem removeEntries_of_allPlain (es : List Entry)
    (h : es.all (fun en => !en.isDir && en.removable) = true) :
    removeEntries es = [] := by
  induction es with
  | nil => rfl
  | cons en rest ih =>
    simp only [List.all_cons, Bool.and_eq_true, Bool.not_eq_true'] at h
    simp [removeEntries, h.1.1, h.1.2, ih h.2]

/-! ## Claims C5, C6 — directory lifecycle -/

/-- Counterexample to C5 as stated.  The claim promises that after
`wipe_export_dir` followed by `ensure_export_dir` the directory is empty
regardless of prior contents, including nested and read-only entries.
In v1.1.0 a nested subdirectory survives the flat `os.remove` loop (the
`OSError` is swallowed) and `os.rmdir` then fails on the non-empty
directory, so the directory still holds the subdirectory afterwards; in
v1.1.1 an unremovable (read-only/locked) file survives
`shutil.rmtree(…, ignore_errors=True)` the same way. -/
theorem c5_wipe_ensure_counterexample :
    ensure_v110 (wipe_v110 (some [⟨true, true⟩])) = some [⟨true, true⟩]
    ∧ ensure_v110 (wipe_v110 (some [⟨true, true⟩]))
        ≠ (some [] : Option (List Entry))
    ∧ ensure_v111 (wipe_v111 (some (FList.cons (FNode.file false) FList.nil)))
        = some (FList.cons (FNode.file false) FList.nil)
    ∧ ensure_v111 (wipe_v111 (some (FList.cons (FNode.file false) FList.nil)))
        ≠ some FList.nil := by
  refine ⟨rfl, by decide, rfl, ?_⟩
  intro h
  have h2 : FList.cons (FNode.file false) FList.nil = FList.nil :=
    Option.some.inj h
  exact FList.noConfusion h2

/-- C5 amended: after `wipe_export_dir` followed by `ensure_export_dir`
the directory always exists (and neither function raises, both being
modelled as total error-swallowing functions); it is moreover empty
provided every prior entry was removable — where for the flat v1.1.0 wipe
"removable" additionally requires every entry to be a plain file, since
`os.remove` cannot delete a subdirectory. -/
theorem c5_wipe_then_ensure_amended (st : Option FList)
    (es : Option (List Entry)) :
    (∃ cs, ensure_v111 (wipe_v111 st) = some cs)
    ∧ (∃ l, ensure_v110 (wipe_v110 es) = some l)
    ∧ (allRemovableOpt st = true →
        ensure_v111 (wipe_v111 st) = some FList.nil)
    ∧ (allPlainRemovable es = true → ensure_v110 (wipe_v110 es) = some []) := by
  refine ⟨?_, ?_, ?_, ?_⟩
  · cases hw : wipe_v111 st
    · exact ⟨FList.nil, rfl⟩
    · exact ⟨_, rfl⟩
  · cases hw : wipe_v110 es
    · exact ⟨[], rfl⟩
    · exact ⟨_, rfl⟩
  · intro h
    cases st with
    | none => rfl
    | some cs =>
      have := rmtreeList_of_allRemovable cs (by simpa [allRemovableOpt] using h)
      simp [wipe_v111, this, ensure_v111]
  · intro h
    cases es with
    | none => rfl
    | some l =>
      have := removeEntries_of_allPlain l (by simpa [allPlainRemovable] using h)
      simp [wipe_v110, this, ensure_v110]

/-- Witness for the amended C5: a nested removable tree is fully cleared
by the recursive v1.1.1 wipe, and a flat list of removable plain files by
the v1.1.0 wipe. -/
theorem c5_wipe_then_ensure_amended_witness :
    allRemovableOpt (some (FList.cons
        (FNode.dir true (FList.cons (FNode.file true) FList.nil))
        FList.nil)) = true
    ∧ ensure_v111 (wipe_v111 (some (FList.cons
        (FNode.dir true (FList.cons (FNode.file true) FList.nil))
        FList.nil))) = some FList.nil
    ∧ allPlainRemovable (some [⟨false, true⟩, ⟨false, true⟩]) = true
    ∧ ensure_v110 (wipe_v110 (some [⟨false, true⟩, ⟨false, true⟩]))
        = some [] := by
  have h := c5_wipe_then_ensure_amended
    (some (FList.cons
      (FNode.dir true (FList.cons (FNode.file true) FList.nil)) FList.nil))
    (some [⟨false, true⟩, ⟨false, true⟩])
  exact ⟨rfl, h.2.2.1 rfl, rfl, h.2.2.2 rfl⟩

/-- v1.1.1 `register()` directory effect (lines 268–269):
`_wipe_export_dir(_chosen_dir())` then `_ensure_export_dir(_chosen_dir())`. -/
def register_dir_v111 (st : Option FList) : Option FList :=
  ensure_v111 (wipe_v111 st)

/-- v1.1.1 `unregister()` directory effect (line 282): wipe only — no
recreation. -/
def unregister_dir_v111 (st : Option FList) : Option FList :=
  wipe_v111 st

/-- v1.1.0 `register()` directory effect (lines 238–239). -/
def register_dir_v110 (es : Option (List Entry)) : Option (List Entry) :=
  ensure_v110 (wipe_v110 es)

/-- v1.1.0 `unregister()` directory effect (line 252): wipe only. -/
def unregister_dir_v110 (es : Option (List Entry)) : Option (List Entry) :=
  wipe_v110 es

/-- Counterexample to C6 as stated.  The claim says the directory is wiped
*and recreated* at all three lifecycle points, including add-on unload;
but `unregister` only wipes in both versions, so after an unload from a
clean state the directory is absent, not recreated. -/
theorem c6_lifecycle_counterexample :
    (unregister_dir_v111 (some FList.nil)).isSome = false
    ∧ (unregister_dir_v110 (some [])).isSome = false :=
  ⟨rfl, rfl⟩

/-- C6 amended: the export directory is wiped at the three lifecycle
points — before each export, at load, and at unload — but recreated only
before each export (during path resolution, once a mesh is selected) and
at load, not at unload.  With removable prior contents, immediately after
load the directory exists and is empty, and after unload it is absent —
so "empty or absent" holds at both points. -/
theorem c6_lifecycle_amended (st : Option FList) (es : Option (List Entry))
    (e : ExecEnv) :
    (allRemovableOpt st = true →
      register_dir_v111 st = some FList.nil
      ∧ unregister_dir_v111 st = none)
    ∧ (allPlainRemovable es = true →
      register_dir_v110 es = some []
      ∧ unregister_dir_v110 es = none)
    ∧ (e.hasMeshSelected = true →
      (execute_v111 e).fsOps.take 2
        = [FsOp.wipeDir (chosen_dir e), FsOp.ensureDir (chosen_dir e)])
    ∧ (execute_v111 e).fsOps.head? = some (FsOp.wipeDir (chosen_dir e)) := by
  refine ⟨?_, ?_, ?_, ?_⟩
  · intro h
    cases st with
    | none => exact ⟨rfl, rfl⟩
    | some cs =>
      have hr := rmtreeList_of_allRemovable cs
        (by simpa [allRemovableOpt] using h)
      constructor
      · simp [register_dir_v111, wipe_v111, hr, ensure_v111]
      · simp [unregister_dir_v111, wipe_v111, hr]
  · intro h
    cases es with
    | none => exact ⟨rfl, rfl⟩
    | some l =>
      have hr := removeEntries_of_allPlain l
        (by simpa [allPlainRemovable] using h)
      constructor
      · simp [register_dir_v110, wipe_v110, hr, ensure_v110]
      · simp [unregister_dir_v110, wipe_v110, hr]
  · intro hsel
    unfold execute_v111
    rw [hsel]
    simp only [Bool.true_eq_false, if_false]
    cases herr : e.exportError with
    | none =>
      by_cases hl : (launchChain e (make_stl_path e.blendFilepath
          e.activeObjName (chosen_dir e) e.now)).1 = true
      · rw [if_pos hl]; rfl
      · rw [if_neg hl]; rfl
    | some m => rfl
  · unfold execute_v111
    by_cases hsel : e.hasMeshSelected = false
    · rw [if_pos hsel]; rfl
    · rw [if_neg hsel]
      cases herr : e.exportError with
      | none =>
        by_cases hl : (launchChain e (make_stl_path e.blendFilepath
            e.activeObjName (chosen_dir e) e.now)).1 = true
        · rw [if_pos hl]; rfl
        · rw [if_neg hl]; rfl
      | some m => rfl

/-- Environment of the C6 witness: a selected mesh on a host where no
launch strategy applies (the launch outcome is irrelevant to the
file-system trace prefix). -/
def envC6 : ExecEnv :=
  ⟨"/home/u", "", fun s => s, "", false, false, false, false, false,
    OSKind.other, false, fun _ => SpawnOutcome.spawnError, true,
    "doc.blend", "Cube", ⟨2024, 1, 2, 3, 4, 5⟩, none⟩

/-- Witness for the amended C6 at concrete inputs. -/
theorem c6_lifecycle_amended_witness :
    allRemovableOpt (some (FList.cons (FNode.file true) FList.nil)) = true
    ∧ register_dir_v111 (some (FList.cons (FNode.file true) FList.nil))
        = some FList.nil
    ∧ unregister_dir_v111 (some (FList.cons (FNode.file true) FList.nil))
        = none
    ∧ envC6.hasMeshSelected = true
    ∧ (execute_v111 envC6).fsOps.take 2
        = [FsOp.wipeDir (chosen_dir envC6), FsOp.ensureDir (chosen_dir envC6)] := by
  have h := c6_lifecycle_amended
    (some (FList.cons (FNode.file true) FList.nil)) (some []) envC6
  exact ⟨rfl, (h.1 rfl).1, (h.1 rfl).2, rfl, h.2.2.1 rfl⟩

/-! ## The v1.1.0 operator (`src/cura_bridge/__init__.py`)

v1.1.0 ships the same `_launch` helper and the same `execute` fallback
chain; its only differences are the fixed `EXPORT_DIR` (no `export_dir`
preference, no `_chosen_dir`) and the flat `_wipe_export_dir` already
modelled above.  The embedding is duplicated from that file so that the
equivalence claim compares two independent translations. -/

/-- v1.1.0 `CURA_OT_send._launch(cmd)` (lines 138–150). -/
def launchCmd_v0 (e : ExecEnv) (cmd : List String) : Bool :=
  match e.spawn cmd with
  | SpawnOutcome.spawnError => false
  | SpawnOutcome.exited _ _ => false
  | SpawnOutcome.running => true

/-- v1.1.0 lines 182–183. -/
def chain1_v0 (e : ExecEnv) (stl : String) : Bool × List Action :=
  if e.curaPath ≠ "" ∧ e.curaPathIsFile = true then
    (launchCmd_v0 e [e.curaPath, stl], [Action.launch [e.curaPath, stl]])
  else (false, [])

/-- v1.1.0 lines 185–187. -/
def chain2_v0 (e : ExecEnv) (stl : String) : Bool × List Action :=
  if (chain1_v0 e stl).1 = false ∧ e.flatpakIdSet = true ∧
      e.whichFlatpakSpawn = true then
    (launchCmd_v0 e (flatpakSpawnCmd e.home stl),
      (chain1_v0 e stl).2 ++ [Action.launch (flatpakSpawnCmd e.home stl)])
  else chain1_v0 e stl

/-- v1.1.0 lines 189–193. -/
def chain3_v0 (e : ExecEnv) (stl : String) : Bool × List Action :=
  if (chain2_v0 e stl).1 = false ∧ e.hostOS = OSKind.linux then
    if e.whichCura = true then
      (launchCmd_v0 e ["cura", stl],
        (chain2_v0 e stl).2 ++ [Action.launch ["cura", stl]])
    else if e.whichFlatpak = true then
      (launchCmd_v0 e (flatpakRunCmd stl),
        (chain2_v0 e stl).2 ++ [Action.launch (flatpakRunCmd stl)])
    else chain2_v0 e stl
  else chain2_v0 e stl

/-- v1.1.0 lines 195–197. -/
def chain4_v0 (e : ExecEnv) (stl : String) : Bool × List Action :=
  if (chain3_v0 e stl).1 = false ∧ e.hostOS = OSKind.windows then
    if e.startfileOk = true then
      (true, (chain3_v0 e stl).2 ++ [Action.startfile stl])
    else
      (false, (chain3_v0 e stl).2 ++ [Action.startfile stl])
  else chain3_v0 e stl

/-- v1.1.0 lines 199–200. -/
def chain5_v0 (e : ExecEnv) (stl : String) : Bool × List Action :=
  if (chain4_v0 e stl).1 = false ∧ e.hostOS = OSKind.darwin then
    (launchCmd_v0 e (macOpenCmd stl),
      (chain4_v0 e stl).2 ++ [Action.launch (macOpenCmd stl)])
  else chain4_v0 e stl

/-- v1.1.0 launch fallback chain of `execute` (lines 180–200). -/
def launchChain_v0 (e : ExecEnv) (stl : String) : Bool × List Action :=
  chain5_v0 e stl

/-- v1.1.0 `CURA_OT_send.execute` (lines 152–207): identical to v1.1.1
except that the export directory is the fixed `EXPORT_DIR` and the wipe is
the flat per-file one. -/
def execute_v110 (e : ExecEnv) : ExecResult :=
  if e.hasMeshSelected = false then
    ⟨OpStatus.cancelled,
      some ⟨ReportLvl.error, "Select a mesh object to export."⟩,
      [], [FsOp.wipeDir (EXPORT_DIR e.home)]⟩
  else
    match e.exportError with
    | some m =>
      ⟨OpStatus.cancelled,
        some ⟨ReportLvl.error, "STL export failed: " ++ m⟩,
        [], [FsOp.wipeDir (EXPORT_DIR e.home),
             FsOp.ensureDir (EXPORT_DIR e.home)]⟩
    | none =>
      if (launchChain_v0 e (make_stl_path_v0 e.blendFilepath e.activeObjName
          e.home e.now)).1 = true then
        ⟨OpStatus.finished, some ⟨ReportLvl.info, "Cura launched; STL sent."⟩,
          (launchChain_v0 e (make_stl_path_v0 e.blendFilepath e.activeObjName
            e.home e.now)).2,
          [FsOp.wipeDir (EXPORT_DIR e.home), FsOp.ensureDir (EXPORT_DIR e.home),
           FsOp.writeStl (make_stl_path_v0 e.blendFilepath e.activeObjName
             e.home e.now)]⟩
      else
        ⟨OpStatus.cancelled,
          some ⟨ReportLvl.error, "Could not launch Cura – see console."⟩,
          (launchChain_v0 e (make_stl_path_v0 e.blendFilepath e.activeObjName
            e.home e.now)).2,
          [FsOp.wipeDir (EXPORT_DIR e.home), FsOp.ensureDir (EXPORT_DIR e.home),
           FsOp.writeStl (make_stl_path_v0 e.blendFilepath e.activeObjName
             e.home e.now)]⟩

theorem chosen_dir_default (e : ExecEnv) (h : e.exportDirPref = "") :
    chosen_dir e = DEFAULT_EXPORT_DIR e.home := by
  unfold chosen_dir
  rw [h, if_neg (by decide)]

/-! ## Claim C10 — behavioural equivalence of the two versions -/

/-- C10. On every shared input state — v1.1.0 has no `export_dir`
preference, so the shared states are those where v1.1.1's preference is
left at its default `""` — the two `execute` methods return the same
status, issue the same report, attempt the same strategies in the same
order with the same command lines, and their `_launch` helpers (the
grace-window handling) agree on every command. -/
theorem c10_version_equivalence (e : ExecEnv) (h : e.exportDirPref = "") :
    (execute_v111 e).status = (execute_v110 e).status
    ∧ (execute_v111 e).report = (execute_v110 e).report
    ∧ (execute_v111 e).attempts = (execute_v110 e).attempts
    ∧ (∀ cmd, launchCmd e cmd = launchCmd_v0 e cmd)
    ∧ (∀ stl, launchChain e stl = launchChain_v0 e stl) := by
  have hd : chosen_dir e = EXPORT_DIR e.home := chosen_dir_default e h
  have hexe : execute_v111 e = execute_v110 e := by
    unfold execute_v111 execute_v110
    rw [hd]
    rfl
  exact ⟨by rw [hexe], by rw [hexe], by rw [hexe],
    fun cmd => rfl, fun stl => rfl⟩

/-- Environment of the C10 witness: default export directory, a configured
executable that stays running. -/
def envC10 : ExecEnv :=
  ⟨"/home/u", "", fun s => s, "/bin/cura", true, false, false, false, false,
    OSKind.linux, false, fun _ => SpawnOutcome.running, true,
    "doc.blend", "Cube", ⟨2024, 1, 2, 3, 4, 5⟩, none⟩

/-- Witness for C10 at a concrete state: both versions finish with the
same report and the same single attempt. -/
theorem c10_version_equivalence_witness :
    envC10.exportDirPref = ""
    ∧ (execute_v111 envC10).status = (execute_v110 envC10).status
    ∧ (execute_v111 envC10).attempts = (execute_v110 envC10).attempts
    ∧ (execute_v111 envC10).status = OpStatus.finished := by
  have h := c10_version_equivalence envC10 rfl
  exact ⟨rfl, h.1, h.2.2.1, by decide⟩
